import Mathlib

/-!
Verification of the voice subsystem of the `discord-cf` repository.

The definitions below are a shallow embedding of the TypeScript sources:

* `src/voice/udp.ts` — `VoiceUDPSocket` (RTP header construction,
  RTP parsing, packet encryption, audio send, keep-alive handling);
* `src/voice/VoiceWebSocket.ts` — `VoiceGatewayOpcodes`, heartbeat
  bookkeeping, payload construction;
* `src/voice/VoiceConnection.ts` — connection state machine,
  `sendAudioPacket`, `disconnect`, silence-frame interval;
* `src/voice/AudioPlayer.ts` — player state machine and `stop`.

Buffers are modelled as `List Nat` of byte values; Node's
`writeUInt*BE/LE` and `readUInt*BE/LE` become the arithmetic
encoders/decoders below (for a byte `b < 256`, `(b >>> k) & m`
coincides with `b / 2^k % (m+1)` for the masks used by the source).
Wall-clock instants are passed explicitly where `Date.now()` occurs.
-/

namespace DiscordCF

/-- Big-endian 2-byte encoding, as `Buffer.writeUInt16BE`. -/
def u16be (n : Nat) : List Nat := [n / 2 ^ 8 % 2 ^ 8, n % 2 ^ 8]

/-- Big-endian 4-byte encoding, as `Buffer.writeUInt32BE`. -/
def u32be (n : Nat) : List Nat :=
  [n / 2 ^ 24 % 2 ^ 8, n / 2 ^ 16 % 2 ^ 8, n / 2 ^ 8 % 2 ^ 8, n % 2 ^ 8]

/-- Little-endian 4-byte encoding, as `Buffer.writeUInt32LE`. -/
def u32le (n : Nat) : List Nat :=
  [n % 2 ^ 8, n / 2 ^ 8 % 2 ^ 8, n / 2 ^ 16 % 2 ^ 8, n / 2 ^ 24 % 2 ^ 8]

/-- `Buffer.readUInt16BE(off)`. -/
def readU16BE (b : List Nat) (off : Nat) : Nat :=
  b.getD off 0 * 2 ^ 8 + b.getD (off + 1) 0

/-- `Buffer.readUInt32BE(off)`. -/
def readU32BE (b : List Nat) (off : Nat) : Nat :=
  b.getD off 0 * 2 ^ 24 + b.getD (off + 1) 0 * 2 ^ 16 +
    b.getD (off + 2) 0 * 2 ^ 8 + b.getD (off + 3) 0

/-- `Buffer.readUInt32LE(off)`. -/
def readU32LE (b : List Nat) (off : Nat) : Nat :=
  b.getD off 0 + b.getD (off + 1) 0 * 2 ^ 8 +
    b.getD (off + 2) 0 * 2 ^ 16 + b.getD (off + 3) 0 * 2 ^ 24

/-! ## Constants from `src/voice/udp.ts` -/

def RTP_HEADER_SIZE : Nat := 12
def RTP_VERSION : Nat := 2
def RTP_PAYLOAD_TYPE : Nat := 120
def KEEP_ALIVE_INTERVAL : Nat := 5000
def KEEP_ALIVE_RETRIES : Nat := 5

/-- `EncryptionMode` from `src/voice/udp.ts`. -/
inductive EncryptionMode where
  | xsalsa20_poly1305_lite
  | xsalsa20_poly1305_suffix
  | xsalsa20_poly1305
  deriving DecidableEq, Repr

/-- `VoiceUDPSocketConfig` (the fields the embedded operations read). -/
structure VoiceUDPSocketConfig where
  ssrc : Nat
  encryptionMode : EncryptionMode
  secretKey : Option (List Nat)
  deriving DecidableEq, Repr

/-- Mutable state of a `VoiceUDPSocket` instance.  `ping` is `Int`
because it is initialised to `-1`; the timers are represented by the
counters they drive. -/
structure UDPState where
  config : VoiceUDPSocketConfig
  sequence : Nat
  timestamp : Nat
  nonce : Nat
  keepAliveCounter : Nat
  closed : Bool
  ping : Int
  pingSendTime : Int
  deriving DecidableEq, Repr

/-- A freshly constructed `VoiceUDPSocket` (`sequence = 0`,
`timestamp = 0`, `nonce = 0`, `keepAliveCounter = 0`, `closed = false`,
`ping = -1`, `pingSendTime = 0`). -/
def UDPState.fresh (config : VoiceUDPSocketConfig) : UDPState :=
  { config := config, sequence := 0, timestamp := 0, nonce := 0,
    keepAliveCounter := 0, closed := false, ping := -1, pingSendTime := 0 }

/-- `RTPPacket` from `src/voice/udp.ts`. -/
structure RTPPacket where
  version : Nat
  padding : Bool
  extension : Bool
  csrcCount : Nat
  marker : Bool
  payloadType : Nat
  sequence : Nat
  timestamp : Nat
  ssrc : Nat
  payload : List Nat
  deriving DecidableEq, Repr

/-- `VoiceUDPSocket.createRTPHeader`: builds the 12-byte header and
post-increments the sequence counter (`(seq + 1) & 0xFFFF`). -/
def createRTPHeader (s : UDPState) : List Nat × UDPState :=
  (((RTP_VERSION * 2 ^ 6) :: RTP_PAYLOAD_TYPE ::
      (u16be s.sequence ++ u32be s.timestamp ++ u32be s.config.ssrc)),
   { s with sequence := (s.sequence + 1) % 2 ^ 16 })

/-- `VoiceUDPSocket.parseRTPPacket`: `null` for buffers shorter than 12
bytes, otherwise the decoded header fields with the payload taken from
offset 12.  Bit operations on bytes are rendered arithmetically:
`(b >>> 6) & 0x3 = b / 64 % 4`, `b & 0x20 ≠ 0 ↔ b / 32 % 2 = 1`,
`b & 0x10 ≠ 0 ↔ b / 16 % 2 = 1`, `b & 0x0F = b % 16`,
`b & 0x80 ≠ 0 ↔ b / 128 % 2 = 1`, `b & 0x7F = b % 128`. -/
def parseRTPPacket (buffer : List Nat) : Option RTPPacket :=
  if buffer.length < RTP_HEADER_SIZE then
    none
  else
    let byte0 := buffer.getD 0 0
    let byte1 := buffer.getD 1 0
    some
      { version := byte0 / 2 ^ 6 % 4
        padding := byte0 / 2 ^ 5 % 2 = 1
        extension := byte0 / 2 ^ 4 % 2 = 1
        csrcCount := byte0 % 2 ^ 4
        marker := byte1 / 2 ^ 7 % 2 = 1
        payloadType := byte1 % 2 ^ 7
        sequence := readU16BE buffer 2
        timestamp := readU32BE buffer 4
        ssrc := readU32BE buffer 8
        payload := buffer.drop RTP_HEADER_SIZE }

/-- Outcome of `VoiceUDPSocket.sendAudioPacket`: the socket was closed
(silent early return), `encryptPacket` threw, or a datagram was sent. -/
inductive SendResult where
  | closedDrop
  | threw (msg : String)
  | sent (packet : List Nat)
  deriving DecidableEq, Repr

/-- `VoiceUDPSocket.encryptPacket`.  Throws when `secretKey` is unset.
Otherwise it builds the RTP header (advancing `sequence`); in LITE mode
it additionally builds the 4-byte big-endian nonce buffer with a
post-increment of `nonce`; the SUFFIX mode hits the `default` branch and
throws.  In both non-throwing branches the executed code falls through
the commented-out sodium block to `Buffer.concat([header, opusPacket])`,
so the returned packet is the header followed by the plain opus payload
(no ciphertext expansion and no nonce trailer). -/
def encryptPacket (s : UDPState) (opusPacket : List Nat) :
    (Option (List Nat)) × UDPState :=
  if s.config.secretKey = none then
    (none, s)
  else
    let hs := createRTPHeader s
    match s.config.encryptionMode with
    | .xsalsa20_poly1305_lite =>
        (some (hs.1 ++ opusPacket), { hs.2 with nonce := hs.2.nonce + 1 })
    | .xsalsa20_poly1305 =>
        (some (hs.1 ++ opusPacket), hs.2)
    | .xsalsa20_poly1305_suffix =>
        (none, hs.2)

/-- `VoiceUDPSocket.sendAudioPacket`: early return when closed; then
encrypt (a throw propagates, leaving the timestamp untouched); on
success the datagram goes out and `timestamp := (timestamp + 960) &
0xFFFFFFFF`. -/
def sendAudioPacket (s : UDPState) (opusPacket : List Nat) :
    SendResult × UDPState :=
  if s.closed then
    (.closedDrop, s)
  else
    match encryptPacket s opusPacket with
    | (none, s1) => (.threw "encryptPacket", s1)
    | (some packet, s1) =>
        (.sent packet, { s1 with timestamp := (s1.timestamp + 960) % 2 ^ 32 })

/-- Iterate `sendAudioPacket` over a list of opus frames, collecting the
datagrams actually emitted. -/
def sendRun (s : UDPState) : List (List Nat) → List (List Nat) × UDPState
  | [] => ([], s)
  | opus :: rest =>
      match sendAudioPacket s opus with
      | (.sent packet, s1) =>
          let r := sendRun s1 rest
          (packet :: r.1, r.2)
      | (_, s1) => sendRun s1 rest

/-- `createSilenceFrame` from `src/voice/udp.ts`. -/
def silenceFrame : List Nat := [0xF8, 0xFF, 0xFE]

/-! ## Keep-alive path of `VoiceUDPSocket` (`src/voice/udp.ts`)

`startKeepAlive` fires `sendKeepAlive` every `KEEP_ALIVE_INTERVAL`
milliseconds.  `sendKeepAlive` and the keep-alive branch of
`handleMessage` touch only `keepAliveCounter`, `ping` and
`pingSendTime`.  Neither function (nor anything else on the class)
emits any staleness signal: `KEEP_ALIVE_RETRIES` is declared at the top
of the file and never referenced again, so the `signals` component
below is empty in every branch. -/

/-- Abstract supervision signals a transport could emit.  The embedded
code never emits any. -/
inductive TransportSignal where
  | transportStale
  deriving DecidableEq, Repr

/-- `VoiceUDPSocket.sendKeepAlive` at wall-clock `now`: an 8-byte
datagram `Buffer.alloc(8)` whose first four bytes are
`writeUInt32LE(keepAliveCounter++)` and whose last four bytes stay
zero; `pingSendTime := now`. -/
def sendKeepAlive (s : UDPState) (now : Int) :
    UDPState × List Nat × List TransportSignal :=
  ({ s with keepAliveCounter := s.keepAliveCounter + 1, pingSendTime := now },
   u32le (s.keepAliveCounter % 2 ^ 32) ++ [0, 0, 0, 0],
   [])

/-- The keep-alive branch of `VoiceUDPSocket.handleMessage` at
wall-clock `now`: an 8-byte message whose little-endian counter equals
`keepAliveCounter - 1` (JavaScript subtraction, hence on `Int`) updates
`ping := now - pingSendTime`; every other message leaves the keep-alive
state untouched (it proceeds to the RTP path). -/
def handleKeepAliveMessage (s : UDPState) (msg : List Nat) (now : Int) :
    UDPState × List TransportSignal :=
  if msg.length = 8 ∧ (readU32LE msg 0 : Int) = (s.keepAliveCounter : Int) - 1 then
    ({ s with ping := now - s.pingSendTime }, [])
  else
    (s, [])

/-- `n` keep-alive interval ticks with no reply in between: each tick
(at 5-second spacing) runs `sendKeepAlive`.  Collects the datagrams
sent and any signals emitted. -/
def keepAliveTicks (s : UDPState) :
    Nat → UDPState × List (List Nat) × List TransportSignal
  | 0 => (s, [], [])
  | n + 1 =>
      let r := sendKeepAlive s
        (((s.keepAliveCounter + 1 : Nat) : Int) * (KEEP_ALIVE_INTERVAL : Int))
      let rest := keepAliveTicks r.1 n
      (rest.1, r.2.1 :: rest.2.1, r.2.2 ++ rest.2.2)

/-! ## `VoiceGatewayOpcodes` and the voice WebSocket
(`src/voice/VoiceWebSocket.ts`) -/

namespace VoiceGatewayOpcodes

def IDENTIFY : Nat := 0
def SELECT_PROTOCOL : Nat := 1
def READY : Nat := 2
def HEARTBEAT : Nat := 3
def SESSION_DESCRIPTION : Nat := 4
def SPEAKING : Nat := 5
def HEARTBEAT_ACK : Nat := 6
def RESUME : Nat := 7
def HELLO : Nat := 8
def RESUMED : Nat := 9
def CLIENT_DISCONNECT : Nat := 13

end VoiceGatewayOpcodes

/-- `VoiceCloseEventCodes.SESSION_TIMEOUT`. -/
def SESSION_TIMEOUT : Nat := 4009

/-- The handler action chosen by the `switch (payload.op)` statement in
`VoiceWebSocket.handleMessage`. -/
inductive GatewayAction where
  | emitHello
  | emitReady
  | handleSessionDescription
  | heartbeatAckReceived
  | emitSpeaking
  | emitClientDisconnect
  | emitResumed
  | warnUnknownOpcode
  deriving DecidableEq, Repr

/-- Dispatch of `VoiceWebSocket.handleMessage` on the payload opcode. -/
def handleMessageDispatch (op : Nat) : GatewayAction :=
  if op = VoiceGatewayOpcodes.HELLO then .emitHello
  else if op = VoiceGatewayOpcodes.READY then .emitReady
  else if op = VoiceGatewayOpcodes.SESSION_DESCRIPTION then .handleSessionDescription
  else if op = VoiceGatewayOpcodes.HEARTBEAT_ACK then .heartbeatAckReceived
  else if op = VoiceGatewayOpcodes.SPEAKING then .emitSpeaking
  else if op = VoiceGatewayOpcodes.CLIENT_DISCONNECT then .emitClientDisconnect
  else if op = VoiceGatewayOpcodes.RESUMED then .emitResumed
  else .warnUnknownOpcode

/-- Opcodes of the payloads the client sends (`identify`,
`selectProtocol`, `setSpeaking`, `sendHeartbeat`, `resume`). -/
def identifyOp : Nat := VoiceGatewayOpcodes.IDENTIFY
def selectProtocolOp : Nat := VoiceGatewayOpcodes.SELECT_PROTOCOL
def setSpeakingOp : Nat := VoiceGatewayOpcodes.SPEAKING
def sendHeartbeatOp : Nat := VoiceGatewayOpcodes.HEARTBEAT
def resumeOp : Nat := VoiceGatewayOpcodes.RESUME

/-- Heartbeat bookkeeping of `VoiceWebSocket`: `lastHeartbeatAck`,
`heartbeatMissed`, and the close code passed to `close` (set when the
WebSocket has been closed; `close` runs `cleanup`, which clears the
heartbeat interval, so a closed state receives no further ticks). -/
structure HBState where
  lastHeartbeatAck : Bool
  heartbeatMissed : Nat
  closeCode : Option Nat
  deriving DecidableEq, Repr

/-- Heartbeat state right after `connect` wires the socket
(`lastHeartbeatAck = true`, `heartbeatMissed = 0`). -/
def HBState.fresh : HBState :=
  { lastHeartbeatAck := true, heartbeatMissed := 0, closeCode := none }

/-- One tick of the interval installed by `VoiceWebSocket.startHeartbeat`.
Returns the new state and the opcode of a HEARTBEAT payload if one was
sent.  When the socket has been closed the interval no longer exists,
so a tick is a no-op.  Otherwise: an unacked tick increments
`heartbeatMissed`; on the third consecutive miss the socket is closed
with `SESSION_TIMEOUT` (4009) — `close` runs `cleanup`, which resets
`lastHeartbeatAck := true` and `heartbeatMissed := 0` — and no
heartbeat is sent; on every other path `lastHeartbeatAck := false` and
a HEARTBEAT payload goes out. -/
def hbTick (s : HBState) : HBState × Option Nat :=
  match s.closeCode with
  | some _ => (s, none)
  | none =>
      if s.lastHeartbeatAck = false then
        if s.heartbeatMissed + 1 ≥ 3 then
          ({ lastHeartbeatAck := true, heartbeatMissed := 0,
             closeCode := some SESSION_TIMEOUT }, none)
        else
          ({ s with heartbeatMissed := s.heartbeatMissed + 1,
                    lastHeartbeatAck := false }, some sendHeartbeatOp)
      else
        ({ s with lastHeartbeatAck := false }, some sendHeartbeatOp)

/-- The `HEARTBEAT_ACK` case of `VoiceWebSocket.handleMessage`:
`lastHeartbeatAck := true; heartbeatMissed := 0`. -/
def hbAck (s : HBState) : HBState :=
  { s with lastHeartbeatAck := true, heartbeatMissed := 0 }

/-! ## `VoiceConnection` (`src/voice/VoiceConnection.ts`)

Timed emissions are pairs `(offset, frame)` where `offset` is the delay
in milliseconds from the triggering call: a synchronous send has offset
0, while `setInterval(f, 20)` fires at offsets 20, 40, 60, …. -/

/-- `VoiceConnectionState`. -/
inductive VoiceConnectionState where
  | disconnected
  | connecting
  | authenticating
  | ready
  | reconnecting
  | destroyed
  deriving DecidableEq, Repr

/-- The fields of `VoiceConnection` the embedded operations read:
connection state, the `speaking` flag, whether a `VoiceWebSocket` is
attached and reports `isReady()`, the optional UDP socket, whether the
silence-frame interval is currently installed, and whether a main
gateway with a `send` method was supplied. -/
structure ConnState where
  state : VoiceConnectionState
  speaking : Bool
  wsPresent : Bool
  wsReady : Bool
  udp : Option UDPState
  silenceActive : Bool
  gatewayPresent : Bool
  deriving DecidableEq, Repr

/-- Effects of one `VoiceConnection` operation: opcodes of voice-gateway
payloads sent, UDP datagrams emitted, and a thrown error if any. -/
structure ConnEffects where
  wsOps : List Nat
  udpPackets : List (List Nat)
  error : Option String
  deriving DecidableEq, Repr

def ConnEffects.none : ConnEffects := ⟨[], [], Option.none⟩

/-- `VoiceConnection.startSpeaking`: when not yet speaking and the
voice WebSocket is ready, set `speaking := true`, send SPEAKING (op 5)
and stop the silence-frame interval. -/
def startSpeaking (c : ConnState) : ConnState × List Nat :=
  if c.speaking = false ∧ c.wsReady = true then
    ({ c with speaking := true, silenceActive := false }, [setSpeakingOp])
  else
    (c, [])

/-- The run of the interval installed by
`VoiceConnection.startSilenceFrames` over `fuel` ticks, with current
`count` and the elapsed offset `t`: each tick at offset `t + 20` sends
one `createSilenceFrame()` through `voiceUDP.sendAudioPacket` while
`count++ < 5`, and the first tick with `count ≥ 5` clears the
interval. -/
def silenceRun : Nat → Nat → Nat → List (Nat × List Nat)
  | 0, _, _ => []
  | fuel + 1, count, t =>
      if count < 5 then
        (t + 20, silenceFrame) :: silenceRun fuel (count + 1) (t + 20)
      else
        []

/-- `VoiceConnection.stopSpeaking`: when speaking and the WebSocket is
ready, clear `speaking`, send SPEAKING(false) and start the silence
interval (a no-op when one is already installed).  Returns the new
state, the gateway opcodes sent, and whether a fresh silence interval
was installed. -/
def stopSpeaking (c : ConnState) : ConnState × List Nat × Bool :=
  if c.speaking = true ∧ c.wsReady = true then
    if c.silenceActive then
      ({ c with speaking := false }, [setSpeakingOp], false)
    else
      ({ c with speaking := false, silenceActive := true }, [setSpeakingOp], true)
  else
    (c, [], false)

/-- `VoiceConnection.sendAudioPacket`: silently return unless the state
is READY; otherwise `startSpeaking` if not yet speaking, then forward
the frame to the UDP socket when one exists (an `encryptPacket` throw
propagates to the caller). -/
def connSendAudioPacket (c : ConnState) (opusPacket : List Nat) :
    ConnState × ConnEffects :=
  if c.state ≠ VoiceConnectionState.ready then
    (c, ConnEffects.none)
  else
    let sp := if c.speaking = false then startSpeaking c else (c, [])
    match sp.1.udp with
    | Option.none => (sp.1, { wsOps := sp.2, udpPackets := [], error := Option.none })
    | Option.some u =>
        match sendAudioPacket u opusPacket with
        | (.sent packet, u1) =>
            ({ sp.1 with udp := Option.some u1 },
             { wsOps := sp.2, udpPackets := [packet], error := Option.none })
        | (.threw msg, u1) =>
            ({ sp.1 with udp := Option.some u1 },
             { wsOps := sp.2, udpPackets := [], error := Option.some msg })
        | (.closedDrop, u1) =>
            ({ sp.1 with udp := Option.some u1 },
             { wsOps := sp.2, udpPackets := [], error := Option.none })

/-- Observable events of `VoiceConnection.disconnect`, in program
order. -/
inductive ConnEvent where
  /-- A payload sent on the main gateway: its opcode and the
  `channel_id` it carries. -/
  | gatewaySent (op : Nat) (channelId : Option String)
  /-- `stopSilenceFrames` cleared an installed interval. -/
  | silenceStopped
  /-- `voiceWebSocket.close()` ran. -/
  | wsClosed
  /-- `voiceUDP.close()` ran. -/
  | udpClosed
  deriving DecidableEq, Repr

/-- The events of `VoiceConnection.cleanup`: stop the silence interval,
close the voice WebSocket if attached, close the UDP socket if
attached. -/
def cleanupEvents (c : ConnState) : List ConnEvent :=
  (if c.silenceActive then [ConnEvent.silenceStopped] else []) ++
    (if c.wsPresent then [ConnEvent.wsClosed] else []) ++
      (if c.udp.isSome then [ConnEvent.udpClosed] else [])

/-- `VoiceConnection.disconnect`: a no-op in the DESTROYED state;
otherwise send the op-4 voice-state update with `channel_id: null` on
the main gateway (when one is attached), then `cleanup()`, then move to
DISCONNECTED. -/
def disconnect (c : ConnState) : ConnState × List ConnEvent :=
  if c.state = VoiceConnectionState.destroyed then
    (c, [])
  else
    ({ c with state := VoiceConnectionState.disconnected,
              silenceActive := false, wsPresent := false, wsReady := false,
              udp := Option.none },
     (if c.gatewayPresent then [ConnEvent.gatewaySent 4 Option.none] else []) ++
       cleanupEvents c)

/-! ## `AudioPlayer` (`src/voice/AudioPlayer.ts`) -/

/-- `AudioPlayerStatus`. -/
inductive AudioPlayerStatus where
  | idle
  | buffering
  | playing
  | paused
  | autoPaused
  deriving DecidableEq, Repr

/-- The player fields the embedded operations read.  `conns` abstracts
`this.connections.size`; `maxMissedFrames` comes from the behaviors
(default 5); `lastFrameTime` is in milliseconds. -/
structure PlayerState where
  status : AudioPlayerStatus
  missedFrames : Nat
  playbackDuration : Nat
  hasResource : Bool
  lastFrameTime : Int
  maxMissedFrames : Nat
  deriving DecidableEq, Repr

/-- `AudioPlayer.stop(force)`: early return when already Idle and not
forced; otherwise clear the pacing interval and synchronously send five
`createSilenceFrame()` payloads to every subscribed connection (offset
0 for each — a plain `for` loop, not a timer), then reset the state to
Idle. -/
def playerStop (p : PlayerState) (force : Bool) (conns : Nat) :
    PlayerState × List (Nat × List Nat) :=
  if p.status = AudioPlayerStatus.idle ∧ force = false then
    (p, [])
  else
    ({ p with status := AudioPlayerStatus.idle, missedFrames := 0,
              playbackDuration := 0, hasResource := false },
     (List.replicate 5 (List.replicate conns ((0 : Nat), silenceFrame))).flatten)

/-- `AudioPlayer.getNextFrame`: `null` without a resource or after five
seconds of playback, otherwise a silence frame (the source's surrogate
producer). -/
def getNextFrame (p : PlayerState) : Option (List Nat) :=
  if p.hasResource = false then Option.none
  else if 5000 < p.playbackDuration then Option.none
  else Option.some silenceFrame

/-- `AudioPlayer.sendNextFrame` at wall-clock `now`: a no-op unless
Playing; late ticks (`now - (lastFrameTime + 20) > 5`) increment
`missedFrames` and pause the player once `maxMissedFrames` is reached;
an exhausted producer triggers `stop()` (with its synchronous silence
burst); otherwise the frame goes to every subscribed connection. -/
def sendNextFrame (p : PlayerState) (conns : Nat) (now : Int) :
    PlayerState × List (Nat × List Nat) :=
  if p.status ≠ AudioPlayerStatus.playing then
    (p, [])
  else
    let late : Bool := 5 < now - (p.lastFrameTime + 20)
    let p1 : PlayerState :=
      if late then { p with missedFrames := p.missedFrames + 1 }
      else { p with missedFrames := 0 }
    if late ∧ p1.maxMissedFrames ≤ p1.missedFrames then
      ({ p1 with status := AudioPlayerStatus.paused }, [])
    else
      match getNextFrame p1 with
      | Option.none => playerStop p1 false conns
      | Option.some frame =>
          ({ p1 with playbackDuration := p1.playbackDuration + 20,
                     lastFrameTime := now },
           List.replicate conns ((0 : Nat), frame))

/-- `L` is emitted at a strict 20 ms cadence: each emission is 20 ms
after the previous one. -/
def isCadence20 (l : List (Nat × List Nat)) : Bool :=
  (List.range (l.length - 1)).all fun i =>
    (l.getD (i + 1) (0, [])).1 = (l.getD i (0, [])).1 + 20

/-- A lite-mode socket configuration with a set key, as produced by the
happy-path handshake (ssrc 1, 32-byte key). -/
def liteConfigEx : VoiceUDPSocketConfig :=
  { ssrc := 1, encryptionMode := EncryptionMode.xsalsa20_poly1305_lite,
    secretKey := Option.some (List.replicate 32 0xAB) }

/-! ## Theorems -/

/-- C10: `parseRTPPacket` is total: buffers shorter than 12 bytes parse
to `null`, and every buffer of length at least 12 parses to a packet
whose payload is exactly the bytes from offset 12 onward. -/
theorem parseRTPPacket_total (buffer : List Nat) :
    (buffer.length < 12 → parseRTPPacket buffer = Option.none) ∧
    (12 ≤ buffer.length →
      ∃ p : RTPPacket, parseRTPPacket buffer = Option.some p ∧
        p.payload = buffer.drop 12) := by
  constructor
  · intro h
    simp [parseRTPPacket, RTP_HEADER_SIZE, h]
  · intro h
    unfold parseRTPPacket
    rw [if_neg (by simp [RTP_HEADER_SIZE]; omega)]
    exact ⟨_, rfl, rfl⟩

/-- Witness for C10 at concrete buffers. -/
theorem parseRTPPacket_total_witness :
    parseRTPPacket [1, 2, 3] = Option.none ∧
    ∃ p : RTPPacket,
      parseRTPPacket [0x80, 120, 0, 1, 0, 0, 0, 2, 0, 0, 0, 3, 9, 9, 9] =
        Option.some p ∧ p.payload = [9, 9, 9] := by
  constructor
  · exact (parseRTPPacket_total [1, 2, 3]).1 (by decide)
  · obtain ⟨p, hp, hpay⟩ :=
      (parseRTPPacket_total [0x80, 120, 0, 1, 0, 0, 0, 2, 0, 0, 0, 3, 9, 9, 9]).2
        (by decide)
    exact ⟨p, hp, hpay.trans (by decide)⟩

/-- C3: the RTP header builder emits exactly 12 bytes with version 2 in
the top two bits of byte 0, payload type 120 in byte 1, then the
big-endian sequence, timestamp and SSRC; and the parser is a left
inverse on any packet starting with such a header, recovering
version 2, no padding/extension/CSRCs/marker, payload type 120, the
same sequence, timestamp and SSRC, and the payload from offset 12. -/
theorem rtp_build_parse_inverse (s : UDPState) (payload : List Nat)
    (hseq : s.sequence < 2 ^ 16) (hts : s.timestamp < 2 ^ 32)
    (hssrc : s.config.ssrc < 2 ^ 32) :
    ((createRTPHeader s).1.length = 12 ∧
      (createRTPHeader s).1.getD 0 0 / 2 ^ 6 % 4 = 2 ∧
      (createRTPHeader s).1.getD 1 0 = 120 ∧
      (createRTPHeader s).1 =
        (createRTPHeader s).1.take 2 ++ u16be s.sequence ++
          u32be s.timestamp ++ u32be s.config.ssrc) ∧
    parseRTPPacket ((createRTPHeader s).1 ++ payload) =
      Option.some
        { version := 2, padding := false, extension := false, csrcCount := 0,
          marker := false, payloadType := 120, sequence := s.sequence,
          timestamp := s.timestamp, ssrc := s.config.ssrc, payload := payload } := by
  refine ⟨⟨?_, ?_, ?_, ?_⟩, ?_⟩
  · simp [createRTPHeader, u16be, u32be]
  · simp [createRTPHeader, RTP_VERSION]
  · simp [createRTPHeader, RTP_PAYLOAD_TYPE]
  · simp [createRTPHeader]
  · unfold parseRTPPacket
    rw [if_neg (by simp [createRTPHeader, u16be, u32be, RTP_HEADER_SIZE])]
    simp only [createRTPHeader, u16be, u32be, readU16BE, readU32BE,
      RTP_HEADER_SIZE, RTP_VERSION, RTP_PAYLOAD_TYPE, List.cons_append,
      List.nil_append, List.getD_cons_zero, List.getD_cons_succ,
      List.drop_succ_cons, List.drop_zero, Option.some.injEq, RTPPacket.mk.injEq]
    and_intros <;> first | trivial | decide | (norm_num; try omega)

/-- Witness for C3 at a concrete socket state and payload. -/
theorem rtp_build_parse_inverse_witness :
    parseRTPPacket
        ((createRTPHeader (UDPState.fresh liteConfigEx)).1 ++ silenceFrame) =
      Option.some
        { version := 2, padding := false, extension := false, csrcCount := 0,
          marker := false, payloadType := 120, sequence := 0, timestamp := 0,
          ssrc := 1, payload := silenceFrame } :=
  (rtp_build_parse_inverse (UDPState.fresh liteConfigEx) silenceFrame
    (by decide) (by decide) (by decide)).2

/-- C6 counterexample: the opcode dictionary does not assign 6 to
RESUME and 7 to HEARTBEAT_ACK; the source assigns them the other way
around. -/
theorem opcode_dictionary_cex :
    ¬ (VoiceGatewayOpcodes.RESUME = 6 ∧ VoiceGatewayOpcodes.HEARTBEAT_ACK = 7) := by
  decide

/-- C6 amended: the opcode dictionary assigns HEARTBEAT_ACK = 6 and
RESUME = 7 (IDENTIFY = 0, SELECT_PROTOCOL = 1, READY = 2,
HEARTBEAT = 3, SESSION_DESCRIPTION = 4, SPEAKING = 5, HELLO = 8,
RESUMED = 9, CLIENT_DISCONNECT = 13), and the client's sent and handled
payloads use exactly these numeric opcodes. -/
theorem opcode_dictionary_amended :
    (VoiceGatewayOpcodes.IDENTIFY = 0 ∧ VoiceGatewayOpcodes.SELECT_PROTOCOL = 1 ∧
      VoiceGatewayOpcodes.READY = 2 ∧ VoiceGatewayOpcodes.HEARTBEAT = 3 ∧
      VoiceGatewayOpcodes.SESSION_DESCRIPTION = 4 ∧
      VoiceGatewayOpcodes.SPEAKING = 5 ∧ VoiceGatewayOpcodes.HEARTBEAT_ACK = 6 ∧
      VoiceGatewayOpcodes.RESUME = 7 ∧ VoiceGatewayOpcodes.HELLO = 8 ∧
      VoiceGatewayOpcodes.RESUMED = 9 ∧
      VoiceGatewayOpcodes.CLIENT_DISCONNECT = 13) ∧
    (handleMessageDispatch 8 = GatewayAction.emitHello ∧
      handleMessageDispatch 2 = GatewayAction.emitReady ∧
      handleMessageDispatch 4 = GatewayAction.handleSessionDescription ∧
      handleMessageDispatch 6 = GatewayAction.heartbeatAckReceived ∧
      handleMessageDispatch 5 = GatewayAction.emitSpeaking ∧
      handleMessageDispatch 13 = GatewayAction.emitClientDisconnect ∧
      handleMessageDispatch 9 = GatewayAction.emitResumed ∧
      handleMessageDispatch 7 = GatewayAction.warnUnknownOpcode) ∧
    (identifyOp = 0 ∧ selectProtocolOp = 1 ∧ setSpeakingOp = 5 ∧
      sendHeartbeatOp = 3 ∧ resumeOp = 7) := by
  decide

/-- C2 at its failing input: on a fresh lite-mode socket with a key,
sending the silence frame emits `header ++ opus` — the nonce counter is
advanced, but the emitted packet carries no 4-byte big-endian counter
trailer (its last four bytes are the final SSRC byte followed by the
opus payload, not the big-endian counter 0). -/
theorem lite_trailer_missing :
    (sendAudioPacket (UDPState.fresh liteConfigEx) silenceFrame).1 =
      SendResult.sent
        ((createRTPHeader (UDPState.fresh liteConfigEx)).1 ++ silenceFrame) ∧
    ((createRTPHeader (UDPState.fresh liteConfigEx)).1 ++ silenceFrame).drop 11 ≠
      u32be (UDPState.fresh liteConfigEx).nonce ∧
    (sendAudioPacket (UDPState.fresh liteConfigEx) silenceFrame).2.nonce =
      (UDPState.fresh liteConfigEx).nonce + 1 := by
  decide

/-- One successful audio send: when the socket is open, the key is set
and the mode is not the unsupported SUFFIX mode, `sendAudioPacket`
emits a datagram whose bytes 2-3 carry `sequence mod 2^16` and bytes
4-7 carry `timestamp mod 2^32`, advancing the cursor by +1 / +960. -/
theorem sendAudioPacket_fields (s : UDPState) (opus : List Nat)
    (hclosed : s.closed = false) (hkey : s.config.secretKey ≠ Option.none)
    (hmode : s.config.encryptionMode ≠ EncryptionMode.xsalsa20_poly1305_suffix) :
    ∃ p s1, sendAudioPacket s opus = (SendResult.sent p, s1) ∧
      readU16BE p 2 = s.sequence % 2 ^ 16 ∧
      readU32BE p 4 = s.timestamp % 2 ^ 32 ∧
      s1.sequence = (s.sequence + 1) % 2 ^ 16 ∧
      s1.timestamp = (s.timestamp + 960) % 2 ^ 32 ∧
      s1.closed = false ∧ s1.config = s.config := by
  cases hm : s.config.encryptionMode with
  | xsalsa20_poly1305_suffix => exact absurd hm hmode
  | xsalsa20_poly1305_lite =>
      simp only [sendAudioPacket, encryptPacket, createRTPHeader, hm, hclosed,
        hkey, Bool.false_eq_true, if_false, if_neg hkey]
      refine ⟨_, _, rfl, ?_, ?_, ?_, ?_, ?_, ?_⟩ <;>
        simp [readU16BE, readU32BE, u16be, u32be, hclosed] <;> omega
  | xsalsa20_poly1305 =>
      simp only [sendAudioPacket, encryptPacket, createRTPHeader, hm, hclosed,
        hkey, Bool.false_eq_true, if_false, if_neg hkey]
      refine ⟨_, _, rfl, ?_, ?_, ?_, ?_, ?_, ?_⟩ <;>
        simp [readU16BE, readU32BE, u16be, u32be, hclosed] <;> omega

/-- Fields of the `i`-th datagram of a run of sends: bytes 2-3 carry
`(sequence₀ + i) mod 2^16` and bytes 4-7 carry
`(timestamp₀ + 960·i) mod 2^32`. -/
theorem sendRun_fields (s : UDPState) (l : List (List Nat))
    (hclosed : s.closed = false) (hkey : s.config.secretKey ≠ Option.none)
    (hmode : s.config.encryptionMode ≠ EncryptionMode.xsalsa20_poly1305_suffix) :
    (sendRun s l).1.length = l.length ∧
    ∀ i, i < l.length →
      readU16BE ((sendRun s l).1.getD i []) 2 = (s.sequence + i) % 2 ^ 16 ∧
      readU32BE ((sendRun s l).1.getD i []) 4 =
        (s.timestamp + 960 * i) % 2 ^ 32 := by
  induction l generalizing s with
  | nil => simp [sendRun]
  | cons o rest ih =>
      obtain ⟨p, s1, hsend, hp2, hp4, hs1seq, hs1ts, hs1closed, hs1config⟩ :=
        sendAudioPacket_fields s o hclosed hkey hmode
      have ihr := ih s1 hs1closed (by rw [hs1config]; exact hkey)
        (by rw [hs1config]; exact hmode)
      refine ⟨?_, ?_⟩
      · simp [sendRun, hsend, ihr.1]
      · intro i hi
        cases i with
        | zero =>
            simp only [sendRun, hsend, List.getD_cons_zero]
            exact ⟨by rw [hp2]; norm_num, by rw [hp4]; norm_num⟩
        | succ j =>
            have hj := ihr.2 j (by simpa using hi)
            simp only [sendRun, hsend, List.getD_cons_succ]
            constructor
            · rw [hj.1, hs1seq]; omega
            · rw [hj.2, hs1ts]; omega

/-- C1: over any run of `sendAudioPacket` calls on one open, keyed
socket (in a supported mode), consecutive emitted packets satisfy
`sequence[n+1] = (sequence[n] + 1) mod 2^16` and
`timestamp[n+1] = (timestamp[n] + 960) mod 2^32`, regardless of the
payloads (silence included). -/
theorem rtp_cursor_advances (s : UDPState) (l : List (List Nat))
    (hclosed : s.closed = false) (hkey : s.config.secretKey ≠ Option.none)
    (hmode : s.config.encryptionMode ≠ EncryptionMode.xsalsa20_poly1305_suffix) :
    ∀ i, i + 1 < (sendRun s l).1.length →
      readU16BE ((sendRun s l).1.getD (i + 1) []) 2 =
        (readU16BE ((sendRun s l).1.getD i []) 2 + 1) % 2 ^ 16 ∧
      readU32BE ((sendRun s l).1.getD (i + 1) []) 4 =
        (readU32BE ((sendRun s l).1.getD i []) 4 + 960) % 2 ^ 32 := by
  intro i hi
  obtain ⟨hlen, hfields⟩ := sendRun_fields s l hclosed hkey hmode
  rw [hlen] at hi
  obtain ⟨h2a, h4a⟩ := hfields i (by omega)
  obtain ⟨h2b, h4b⟩ := hfields (i + 1) (by omega)
  rw [h2a, h4a, h2b, h4b]
  constructor <;> omega

/-- Witness for C1: two silence frames on a fresh lite-mode socket. -/
theorem rtp_cursor_advances_witness :
    readU16BE
        ((sendRun (UDPState.fresh liteConfigEx)
            [silenceFrame, silenceFrame]).1.getD 1 []) 2 =
      (readU16BE
          ((sendRun (UDPState.fresh liteConfigEx)
              [silenceFrame, silenceFrame]).1.getD 0 []) 2 + 1) % 2 ^ 16 ∧
    readU32BE
        ((sendRun (UDPState.fresh liteConfigEx)
            [silenceFrame, silenceFrame]).1.getD 1 []) 4 =
      (readU32BE
          ((sendRun (UDPState.fresh liteConfigEx)
              [silenceFrame, silenceFrame]).1.getD 0 []) 4 + 960) % 2 ^ 32 :=
  rtp_cursor_advances (UDPState.fresh liteConfigEx) [silenceFrame, silenceFrame]
    (by decide) (by decide) (by decide) 0 (by decide)

/-- C4: from any open heartbeat state with an outstanding unacked
HEARTBEAT, three consecutive interval ticks with no intervening
HEARTBEAT_ACK close the WebSocket with code 4009 (SESSION_TIMEOUT),
after which ticks send no further heartbeats; and a received
HEARTBEAT_ACK resets the consecutive-miss count to zero. -/
theorem heartbeat_timeout_closes (s : HBState)
    (hopen : s.closeCode = Option.none)
    (hunacked : s.lastHeartbeatAck = false) :
    ((hbTick ((hbTick ((hbTick s).1)).1)).1.closeCode =
        Option.some SESSION_TIMEOUT) ∧
    (hbTick ((hbTick ((hbTick ((hbTick s).1)).1)).1)).2 = Option.none ∧
    (∀ t : HBState, (hbAck t).heartbeatMissed = 0 ∧
      (hbAck t).lastHeartbeatAck = true) := by
  obtain ⟨ack, m, cc⟩ := s
  simp only at hopen hunacked
  subst hopen hunacked
  refine ⟨?_, ?_, fun t => ⟨rfl, rfl⟩⟩ <;>
  · match m with
    | 0 => decide
    | 1 => decide
    | n + 2 => simp [hbTick, Nat.le_add_left]

/-- Witness for C4 at the state holding right after the first unacked
heartbeat went out. -/
theorem heartbeat_timeout_closes_witness :
    ((hbTick ((hbTick ((hbTick
        { lastHeartbeatAck := false, heartbeatMissed := 0,
          closeCode := Option.none }).1)).1)).1.closeCode =
      Option.some SESSION_TIMEOUT) ∧
    (hbTick ((hbTick ((hbTick ((hbTick
        { lastHeartbeatAck := false, heartbeatMissed := 0,
          closeCode := Option.none }).1)).1)).1)).2 = Option.none ∧
    (∀ t : HBState, (hbAck t).heartbeatMissed = 0 ∧
      (hbAck t).lastHeartbeatAck = true) :=
  heartbeat_timeout_closes
    { lastHeartbeatAck := false, heartbeatMissed := 0, closeCode := Option.none }
    rfl rfl

/-- Flattening `n` copies of `c` copies of `x` gives `n·c` copies. -/
theorem flatten_replicate_replicate {α : Type} (n c : Nat) (x : α) :
    (List.replicate n (List.replicate c x)).flatten = List.replicate (n * c) x := by
  induction n with
  | zero => simp
  | succ k ih =>
      rw [List.replicate_succ, List.flatten_cons, ih, ← List.replicate_add]
      congr 1
      ring

/-- Once the count reaches 5 the silence interval clears itself. -/
theorem silenceRun_stops (f t : Nat) : silenceRun f 5 t = [] := by
  cases f <;> simp [silenceRun]

/-- Any run of at least 5 ticks of the silence interval emits exactly
five silence frames, at offsets 20, 40, 60, 80, 100 ms. -/
theorem silenceRun_five (n : Nat) (h : 5 ≤ n) :
    silenceRun n 0 0 =
      [(20, silenceFrame), (40, silenceFrame), (60, silenceFrame),
        (80, silenceFrame), (100, silenceFrame)] := by
  obtain ⟨m, rfl⟩ : ∃ m, n = m + 5 := ⟨n - 5, by omega⟩
  show silenceRun (m + 5) 0 0 = _
  simp [silenceRun, silenceRun_stops]

/-- A player in the Playing state with one subscribed connection. -/
def playingPlayerEx : PlayerState :=
  { status := AudioPlayerStatus.playing, missedFrames := 0,
    playbackDuration := 0, hasResource := true, lastFrameTime := 0,
    maxMissedFrames := 5 }

/-- C5 counterexample: a Playing→Idle `stop()` of the audio player
sends its five silence frames synchronously in a `for` loop — all at
offset 0, not at 20 ms cadence. -/
theorem player_stop_burst_cex :
    (playerStop playingPlayerEx false 1).2.length = 5 ∧
    (∀ e ∈ (playerStop playingPlayerEx false 1).2, e = (0, silenceFrame)) ∧
    isCadence20 (playerStop playingPlayerEx false 1).2 = false := by
  decide

/-- C5 amended: a speaking true→false transition (`stopSpeaking` with
the WebSocket ready and no silence interval already active) starts the
silence interval, which emits exactly five `F8 FF FE` frames at 20 ms
cadence and then stops; a Playing→Idle `stop()` of the audio player
sends exactly five `F8 FF FE` frames per subscribed connection, but
synchronously (offset 0, not 20 ms apart), before resting at Idle; an
Idle player emits no further frames. -/
theorem silence_tail_amended :
    (∀ c : ConnState, c.speaking = true → c.wsReady = true →
      c.silenceActive = false →
      (stopSpeaking c).1.speaking = false ∧
      (stopSpeaking c).1.silenceActive = true ∧ (stopSpeaking c).2.2 = true) ∧
    (∀ n, 5 ≤ n →
      silenceRun n 0 0 =
        [(20, silenceFrame), (40, silenceFrame), (60, silenceFrame),
          (80, silenceFrame), (100, silenceFrame)] ∧
      isCadence20 (silenceRun n 0 0) = true) ∧
    (∀ (p : PlayerState) (conns : Nat),
      p.status = AudioPlayerStatus.playing →
      (playerStop p false conns).2 =
        List.replicate (5 * conns) ((0 : Nat), silenceFrame) ∧
      (playerStop p false conns).1.status = AudioPlayerStatus.idle) ∧
    (∀ (p : PlayerState) (conns : Nat) (now : Int),
      p.status = AudioPlayerStatus.idle → sendNextFrame p conns now = (p, [])) := by
  refine ⟨?_, ?_, ?_, ?_⟩
  · intro c hs hw ha
    simp [stopSpeaking, hs, hw, ha]
  · intro n hn
    rw [silenceRun_five n hn]
    exact ⟨rfl, by decide⟩
  · intro p conns hp
    constructor
    · simp only [playerStop, hp]
      rw [if_neg (by simp)]
      exact flatten_replicate_replicate 5 conns _
    · simp [playerStop, hp]
  · intro p conns now hp
    simp [sendNextFrame, hp]

/-- Witness for C5 (amended) at a concrete player and run length. -/
theorem silence_tail_amended_witness :
    (playerStop playingPlayerEx false 2).2 =
      List.replicate 10 ((0 : Nat), silenceFrame) ∧
    silenceRun 6 0 0 =
      [(20, silenceFrame), (40, silenceFrame), (60, silenceFrame),
        (80, silenceFrame), (100, silenceFrame)] := by
  constructor
  · have h := (silence_tail_amended.2.2.1 playingPlayerEx 2 rfl).1
    simpa using h
  · exact (silence_tail_amended.2.1 6 (by decide)).1

/-- A socket configuration with no secret key (before
SESSION_DESCRIPTION). -/
def kaConfigEx : VoiceUDPSocketConfig :=
  { ssrc := 2, encryptionMode := EncryptionMode.xsalsa20_poly1305,
    secretKey := Option.none }

/-- C7 counterexample: after five keep-alives (counters 0–4) with no
replies, no staleness signal has been emitted; and an 8-byte reply
echoing the sent counter 3 — a sent counter, but not the most recent —
leaves `ping` at its initial −1. -/
theorem keepalive_cex :
    ((u32le 3 ++ [0, 0, 0, 0]) ∈
        (keepAliveTicks (UDPState.fresh kaConfigEx) 5).2.1) ∧
    (keepAliveTicks (UDPState.fresh kaConfigEx) 5).2.2 = [] ∧
    (handleKeepAliveMessage (keepAliveTicks (UDPState.fresh kaConfigEx) 5).1
        (u32le 3 ++ [0, 0, 0, 0]) 26000).2 = [] ∧
    (handleKeepAliveMessage (keepAliveTicks (UDPState.fresh kaConfigEx) 5).1
        (u32le 3 ++ [0, 0, 0, 0]) 26000).1.ping = -1 := by
  decide

/-- C7 amended: every `KEEP_ALIVE_INTERVAL = 5000` ms the transport
sends an 8-byte payload — little-endian 32-bit counter then four zero
bytes — incrementing the counter and recording the send instant; an
8-byte reply matching the *most recently sent* counter (counter − 1)
updates `ping = now − pingSendTime`; `KEEP_ALIVE_RETRIES = 5` is
declared but no staleness signalling is implemented. -/
theorem keepalive_amended :
    KEEP_ALIVE_INTERVAL = 5000 ∧ KEEP_ALIVE_RETRIES = 5 ∧
    (∀ (s : UDPState) (now : Int),
      (sendKeepAlive s now).2.1.length = 8 ∧
      (sendKeepAlive s now).2.1 =
        u32le (s.keepAliveCounter % 2 ^ 32) ++ [0, 0, 0, 0] ∧
      (sendKeepAlive s now).2.1.drop 4 = [0, 0, 0, 0] ∧
      (sendKeepAlive s now).1.keepAliveCounter = s.keepAliveCounter + 1 ∧
      (sendKeepAlive s now).1.pingSendTime = now ∧
      (sendKeepAlive s now).2.2 = []) ∧
    (∀ (s : UDPState) (msg : List Nat) (now : Int),
      msg.length = 8 →
      (readU32LE msg 0 : Int) = (s.keepAliveCounter : Int) - 1 →
      (handleKeepAliveMessage s msg now).1.ping = now - s.pingSendTime) ∧
    (∀ (s : UDPState) (msg : List Nat) (now : Int),
      (handleKeepAliveMessage s msg now).2 = []) := by
  refine ⟨rfl, rfl, ?_, ?_, ?_⟩
  · intro s now
    refine ⟨?_, rfl, ?_, rfl, rfl, rfl⟩ <;> simp [sendKeepAlive, u32le]
  · intro s msg now h1 h2
    simp [handleKeepAliveMessage, h1, h2]
  · intro s msg now
    unfold handleKeepAliveMessage
    split <;> rfl

/-- Witness for C7 (amended): one keep-alive at 5000 ms, acknowledged
40 ms later. -/
theorem keepalive_amended_witness :
    (handleKeepAliveMessage (sendKeepAlive (UDPState.fresh kaConfigEx) 5000).1
        (u32le 0 ++ [0, 0, 0, 0]) 5040).1.ping =
      5040 - (sendKeepAlive (UDPState.fresh kaConfigEx) 5000).1.pingSendTime :=
  keepalive_amended.2.2.2.1 (sendKeepAlive (UDPState.fresh kaConfigEx) 5000).1
    (u32le 0 ++ [0, 0, 0, 0]) 5040 (by decide) (by decide)

/-- `sendAudioPacket` never emits a datagram while the secret key is
unset: `encryptPacket` throws first. -/
theorem sendAudioPacket_no_key (s : UDPState) (opus : List Nat)
    (hkey : s.config.secretKey = Option.none) :
    ∀ p, (sendAudioPacket s opus).1 ≠ SendResult.sent p := by
  intro p
  unfold sendAudioPacket encryptPacket
  by_cases hc : s.closed = true
  · simp [hc]
  · simp [hc, hkey]

/-- `startSpeaking` never touches the UDP socket. -/
theorem startSpeaking_udp (c : ConnState) : (startSpeaking c).1.udp = c.udp := by
  unfold startSpeaking
  split <;> rfl

/-- C8: `VoiceConnection.sendAudioPacket` in any state other than READY
is silently dropped — the connection is unchanged, nothing is emitted
and no error is raised; and no audio datagram is ever emitted while the
UDP socket's secret key is unset. -/
theorem sendAudio_ready_guard (c : ConnState) (opus : List Nat) :
    (c.state ≠ VoiceConnectionState.ready →
      connSendAudioPacket c opus = (c, ConnEffects.none)) ∧
    (∀ u, c.udp = Option.some u → u.config.secretKey = Option.none →
      (connSendAudioPacket c opus).2.udpPackets = []) ∧
    (∀ s : UDPState, s.config.secretKey = Option.none →
      ∀ p, (sendAudioPacket s opus).1 ≠ SendResult.sent p) := by
  refine ⟨?_, ?_, fun s hs => sendAudioPacket_no_key s opus hs⟩
  · intro h
    simp [connSendAudioPacket, h]
  · intro u hu hkey
    by_cases hr : c.state = VoiceConnectionState.ready
    · rcases hres : sendAudioPacket u opus with ⟨r, u1⟩
      cases r with
      | sent p =>
          exact absurd (by rw [hres]) (sendAudioPacket_no_key u opus hkey p)
      | threw msg =>
          by_cases hspk : c.speaking = false <;>
            simp [connSendAudioPacket, hr, hspk, startSpeaking_udp, hu, hres]
      | closedDrop =>
          by_cases hspk : c.speaking = false <;>
            simp [connSendAudioPacket, hr, hspk, startSpeaking_udp, hu, hres]
    · simp [connSendAudioPacket, hr, ConnEffects.none]

/-- A connection still connecting (not READY). -/
def connectingConnEx : ConnState :=
  { state := VoiceConnectionState.connecting, speaking := false,
    wsPresent := true, wsReady := false, udp := Option.none,
    silenceActive := false, gatewayPresent := true }

/-- A READY connection whose UDP socket has no secret key yet. -/
def readyNoKeyConnEx : ConnState :=
  { state := VoiceConnectionState.ready, speaking := true, wsPresent := true,
    wsReady := true, udp := Option.some (UDPState.fresh kaConfigEx),
    silenceActive := false, gatewayPresent := true }

/-- Witness for C8: a not-READY connection and a keyless READY one. -/
theorem sendAudio_ready_guard_witness :
    connSendAudioPacket connectingConnEx silenceFrame =
      (connectingConnEx, ConnEffects.none) ∧
    (connSendAudioPacket readyNoKeyConnEx silenceFrame).2.udpPackets = [] := by
  constructor
  · exact (sendAudio_ready_guard connectingConnEx silenceFrame).1 (by decide)
  · exact (sendAudio_ready_guard readyNoKeyConnEx silenceFrame).2.1
      (UDPState.fresh kaConfigEx) rfl rfl

/-- A destroyed connection with a gateway still attached. -/
def destroyedConnEx : ConnState :=
  { state := VoiceConnectionState.destroyed, speaking := false,
    wsPresent := false, wsReady := false, udp := Option.none,
    silenceActive := false, gatewayPresent := true }

/-- C9 counterexample: called in the DESTROYED state, `disconnect()` is
a no-op — no op-4 payload is emitted and the state does not become
DISCONNECTED. -/
theorem disconnect_destroyed_cex :
    (disconnect destroyedConnEx).2 = [] ∧
    (disconnect destroyedConnEx).1.state ≠
      VoiceConnectionState.disconnected := by
  decide

/-- C9 amended: from every state except DESTROYED, `disconnect()` on a
connection with an attached gateway emits the main-gateway op-4 payload
with `channel_id = null` first, before the teardown events (silence
interval, WebSocket, UDP), and leaves the state DISCONNECTED with both
sockets gone. -/
theorem disconnect_amended (c : ConnState)
    (hne : c.state ≠ VoiceConnectionState.destroyed)
    (hgw : c.gatewayPresent = true) :
    (disconnect c).2 = ConnEvent.gatewaySent 4 Option.none :: cleanupEvents c ∧
    (disconnect c).1.state = VoiceConnectionState.disconnected ∧
    (disconnect c).1.wsPresent = false ∧
    (disconnect c).1.udp = Option.none := by
  simp [disconnect, hne, hgw]

/-- Witness for C9 (amended) at a concrete READY connection. -/
theorem disconnect_amended_witness :
    (disconnect readyNoKeyConnEx).2 =
      ConnEvent.gatewaySent 4 Option.none :: cleanupEvents readyNoKeyConnEx ∧
    (disconnect readyNoKeyConnEx).1.state =
      VoiceConnectionState.disconnected ∧
    (disconnect readyNoKeyConnEx).1.wsPresent = false ∧
    (disconnect readyNoKeyConnEx).1.udp = Option.none :=
  disconnect_amended readyNoKeyConnEx (by decide) rfl

end DiscordCF
